import Mathlib

/-!
Shallow embedding of src/lib/backends/dam/file.js (the JCRFile remote-backed
file handle of the dam backend of node-smb-server).

Modelling conventions:
* The callback-chained asynchronous code is embedded as pure functions from a
  handle state and an environment record (the outcomes the outside world —
  HTTP endpoint, local filesystem, staging delegate — would deliver to the
  callbacks) to a result, a successor state, and a list of I/O events.
* The event list of an operation is ordered and contains exactly the I/O the
  operation performs before its callback fires; an event in the list
  therefore happened strictly before the operation reported its outcome.
* JavaScript Date round-trips (toISOString / new Date(...).getTime()) are
  modelled as the identity on millisecond values; timestamps are Int, byte
  counts are Nat.
-/

namespace JCRModel

/-- Modelled from the spec: the JCR node-type tag constants. The constants
module (src/lib/backends/dam/constants.js, required as JCR) is not under
src/; the spec glossary names the tags generic-file-type (nt:file),
asset-type (dam:Asset), folder-type (nt:folder), ordered-folder-type
(sling:OrderedFolder) and generic-folder-type (sling:Folder). -/
def NT_FILE : String := "nt:file"

/-- Modelled from the spec: asset-type tag. -/
def DAM_ASSET : String := "dam:Asset"

/-- Modelled from the spec: folder-type tag. -/
def NT_FOLDER : String := "nt:folder"

/-- Modelled from the spec: generic-folder-type tag. -/
def SLING_FOLDER : String := "sling:Folder"

/-- Modelled from the spec: ordered-folder-type tag. -/
def SLING_ORDEREDFOLDER : String := "sling:OrderedFolder"

/-- Modelled from the spec: the SMB status codes used by this file
(src/lib/constants.js is not under src/); the spec only requires an
operation-unsuccessful kind and a not-implemented kind, distinct. -/
inductive NTStatus
  | unsuccessful
  | notImplemented
  deriving DecidableEq, Repr

/-- Error value carried to a callback: either an SMBError (status code plus
message, as built by new SMBError(status, message) — message defaults to the
empty string) or a raw lower-layer error object carrying a message. -/
inductive ErrVal
  | smb (status : NTStatus) (message : String)
  | raw (msg : String)
  deriving DecidableEq, Repr

/-- The jcr content record of a handle: the jcr:primaryType tag, the
jcr:created timestamp, and the jcr:lastModified timestamp nested under the
jcr:content sub-record (date strings modelled as millisecond values). -/
structure Content where
  primaryType : String
  createdMs : Int
  lastModifiedMs : Int
  deriving DecidableEq, Repr

/-- The shared remote endpoint descriptor (tree.share): host, port, base
path. Credentials are attached per call and never inspected, so they are
omitted. -/
structure Share where
  host : String
  port : Nat
  path : String
  deriving DecidableEq, Repr

/-- Local staging delegate (an FSFile bound to a local tmp file): its path
and the byte size recorded from the stat at construction. -/
structure FSFile where
  filePath : String
  statsSize : Nat
  deriving DecidableEq, Repr

/-- State of a JCRFile handle: path, jcr content record, last known byte
length, the shared endpoint descriptor, and the lazily created staging copy
(this.fsFile — none encodes not materialized). -/
structure JCRFile where
  filePath : String
  content : Content
  fileLength : Nat
  share : Share
  fsFile : Option FSFile
  deriving DecidableEq, Repr

/-- I/O events an operation performs, in order, before its callback fires. -/
inductive Event
  | tmpCreate (path : String)
  | getReq (url : String)
  | delReq (url : String)
  | postReq (url : String)
  | statCall (path : String)
  | unlink (path : String)
  | localDelete (path : String)
  deriving DecidableEq, Repr

def Event.isGet : Event → Bool
  | Event.getReq _ => true
  | _ => false

/-- Number of remote GET fetches in a trace. -/
def fetchCount (tr : List Event) : Nat :=
  (tr.filter Event.isGet).length

/-- JCRFile.isFile (static): primaryType occurs in [NT_FILE, DAM_ASSET]
(indexOf > -1 in the source). -/
def JCRFile.isFile (primaryType : String) : Bool :=
  [NT_FILE, DAM_ASSET].contains primaryType

/-- JCRFile.isDirectory (static): primaryType occurs in
[NT_FOLDER, SLING_FOLDER, SLING_ORDEREDFOLDER]. -/
def JCRFile.isDirectory (primaryType : String) : Bool :=
  [NT_FOLDER, SLING_FOLDER, SLING_ORDEREDFOLDER].contains primaryType

/-- The classification of a primary-type tag, as the spec describes it:
File, Directory or Other. -/
inductive FileKind
  | file
  | directory
  | other
  deriving DecidableEq, Repr

/-- classify(primaryType): the pair of static predicates of the source read
as a three-way classification (the two tag sets are disjoint, so the order
of the tests does not matter). -/
def classify (primaryType : String) : FileKind :=
  if JCRFile.isFile primaryType then FileKind.file
  else if JCRFile.isDirectory primaryType then FileKind.directory
  else FileKind.other

/-- JCRFile.prototype.isFile: classify the own primary type of this handle. -/
def JCRFile.isFileM (s : JCRFile) : Bool :=
  JCRFile.isFile s.content.primaryType

/-- JCRFile.prototype.isDirectory. -/
def JCRFile.isDirectoryM (s : JCRFile) : Bool :=
  JCRFile.isDirectory s.content.primaryType

/-- JCRFile.prototype.size: returns this.fileLength. -/
def JCRFile.size (s : JCRFile) : Nat :=
  s.fileLength

/-- JCRFile.prototype.allocationSize: this.isFile() ? this.size() : 0. -/
def JCRFile.allocationSize (s : JCRFile) : Nat :=
  if s.isFileM then s.size else 0

/-- JCRFile.prototype.created: the jcr:created timestamp. -/
def JCRFile.created (s : JCRFile) : Int :=
  s.content.createdMs

/-- JCRFile.prototype.lastModified: for files the jcr:content/jcr:lastModified
timestamp, otherwise created(). -/
def JCRFile.lastModified (s : JCRFile) : Int :=
  if s.isFileM then s.content.lastModifiedMs else s.created

/-- JCRFile.prototype.setLastModified: updates the nested timestamp only for
file-typed handles; a no-op otherwise. -/
def JCRFile.setLastModified (s : JCRFile) (ms : Int) : JCRFile :=
  if s.isFileM then { s with content := { s.content with lastModifiedMs := ms } } else s

/-- The GET url: http:// + share.host + : + share.port + share.path + filePath. -/
def JCRFile.getUrl (s : JCRFile) : String :=
  "http://" ++ s.share.host ++ ":" ++ toString s.share.port ++ s.share.path ++ s.filePath

/-- The asset api url: http:// + share.host + : + share.port + /api/assets + filePath. -/
def JCRFile.assetUrl (s : JCRFile) : String :=
  "http://" ++ s.share.host ++ ":" ++ toString s.share.port ++ "/api/assets" ++ s.filePath

/-- Outcomes the environment delivers to one fetch attempt of
ensureGotLocalCopy: the fresh tmp file path, an optional transport error
(the request error event), the response status code, an optional stat
failure, and the stat size on success. -/
structure FetchEnv where
  tmpPath : String
  transportErr : Option String
  statusCode : Nat
  statErr : Option String
  statSize : Nat
  deriving DecidableEq, Repr

/-- A fetch environment in which the GET succeeds end to end. -/
def FetchEnv.isOk (e : FetchEnv) : Bool :=
  e.transportErr.isNone && (e.statusCode == 200) && e.statErr.isNone

/-- Errors ensureGotLocalCopy reports: a transport error object, the plain
failure string built on a non-200 status, or a stat error object. -/
inductive FetchErr
  | transport (msg : String)
  | spoolFailed (msg : String)
  | localStat (msg : String)
  deriving DecidableEq, Repr

/-- The message extraction typeof err === string ? err : err.message used by
the callers that normalize fetch errors. -/
def FetchErr.message : FetchErr → String
  | FetchErr.transport m => m
  | FetchErr.spoolFailed m => m
  | FetchErr.localStat m => m

/-- JCRFile.prototype.ensureGotLocalCopy. If this.fsFile is present it is
returned at once with no I/O. Otherwise a tmp file is allocated, a GET is
issued and spooled into it; a transport error unlinks the tmp file and
reports the error; a non-200 status marks the transfer failed and, once the
stream finishes, unlinks the tmp file and reports the failure string; on
success the tmp file is stat-ed, an FSFile is built, cached on the handle
and returned (a stat failure reports the raw error without unlinking). -/
def ensureGotLocalCopy (s : JCRFile) (env : FetchEnv) :
    Except FetchErr FSFile × JCRFile × List Event :=
  match s.fsFile with
  | some f => (Except.ok f, s, [])
  | none =>
    let tr0 := [Event.tmpCreate env.tmpPath, Event.getReq s.getUrl]
    match env.transportErr with
    | some m =>
        (Except.error (FetchErr.transport m), s, tr0 ++ [Event.unlink env.tmpPath])
    | none =>
      if env.statusCode ≠ 200 then
        (Except.error
          (FetchErr.spoolFailed ("failed to spool " ++ s.filePath ++ " to " ++ env.tmpPath)),
          s, tr0 ++ [Event.unlink env.tmpPath])
      else
        match env.statErr with
        | some m =>
            (Except.error (FetchErr.localStat m), s, tr0 ++ [Event.statCall env.tmpPath])
        | none =>
            (Except.ok ⟨env.tmpPath, env.statSize⟩,
              { s with fsFile := some ⟨env.tmpPath, env.statSize⟩ },
              tr0 ++ [Event.statCall env.tmpPath])

/-- Sequential calls to ensureGotLocalCopy on one handle, each with its own
environment; returns the final state, the per-call results in order, and the
concatenated trace. -/
def ensureSeq (s : JCRFile) (envs : List FetchEnv) :
    JCRFile × List (Except FetchErr FSFile) × List Event :=
  match envs with
  | [] => (s, [], [])
  | e :: rest =>
    let r1 := ensureGotLocalCopy s e
    let r2 := ensureSeq r1.2.1 rest
    (r2.1, r1.1 :: r2.2.1, r1.2.2 ++ r2.2.2)

/-- Outcome the staging delegate delivers to one byte-range operation. -/
structure DelegateEnv where
  fails : Bool
  errMsg : String
  bytesRead : Nat
  deriving DecidableEq, Repr

/-- Modelled from the spec: the byte-range read of the local staging delegate
(FSFile, src/lib/backends/fs/file.js, is not under src/). Per the error taxonomy of the spec, its failure reaches the caller as a status-coded
operation-unsuccessful error; on success it reports the bytes read. -/
def FSFile.readOp (_f : FSFile) (env : DelegateEnv) : Except ErrVal Nat :=
  if env.fails then Except.error (ErrVal.smb NTStatus.unsuccessful env.errMsg)
  else Except.ok env.bytesRead

/-- Modelled from the spec: the byte-range write of the local staging delegate;
failure is a status-coded operation-unsuccessful error, success is a bare ack. -/
def FSFile.writeOp (_f : FSFile) (env : DelegateEnv) : Option ErrVal :=
  if env.fails then some (ErrVal.smb NTStatus.unsuccessful env.errMsg)
  else none

/-- JCRFile.prototype.read: ensure the local copy (a failure is wrapped as
new SMBError(STATUS_UNSUCCESSFUL, message)), then forward to the
byte-range read of the delegate, whose callback is passed through unchanged. -/
def JCRFile.read (s : JCRFile) (fenv : FetchEnv) (denv : DelegateEnv) :
    Except ErrVal Nat × JCRFile × List Event :=
  match ensureGotLocalCopy s fenv with
  | (Except.error e, s1, tr) =>
      (Except.error (ErrVal.smb NTStatus.unsuccessful e.message), s1, tr)
  | (Except.ok f, s1, tr) => (f.readOp denv, s1, tr)

/-- JCRFile.prototype.write: same shape as read. -/
def JCRFile.write (s : JCRFile) (fenv : FetchEnv) (denv : DelegateEnv) :
    Option ErrVal × JCRFile × List Event :=
  match ensureGotLocalCopy s fenv with
  | (Except.error e, s1, tr) =>
      (some (ErrVal.smb NTStatus.unsuccessful e.message), s1, tr)
  | (Except.ok f, s1, tr) => (f.writeOp denv, s1, tr)

/-- Outcomes the environment delivers to one flush: the fetch environment
passed to the inner ensureGotLocalCopy call, the outcome of the DELETE
request (its callback arguments are ignored by the source), the outcome of
the POST, and the outcome of the final stat of the staged file. -/
structure FlushEnv where
  fetchEnv : FetchEnv
  delErr : Option String
  delStatus : Nat
  postErr : Option String
  postStatus : Nat
  statErr : Option String
  statSize : Nat
  statMtimeMs : Int
  deriving DecidableEq, Repr

/-- JCRFile.prototype.flush. Without a staging copy it succeeds at once with
no I/O. Otherwise it ensures the local copy, and if share.path is
/content/dam it issues DELETE then — in the DELETE callback, whose error and
response are never examined — streams the staged file into a POST to the
same url. A POST transport error or non-200 status reports
STATUS_UNSUCCESSFUL and touches nothing; on 200 the staged file is stat-ed
and fileLength and the last-modified timestamp are refreshed from the stat
(a stat failure reports the raw error). Off the dam path it reports
STATUS_NOT_IMPLEMENTED. -/
def JCRFile.flush (s : JCRFile) (env : FlushEnv) :
    Option ErrVal × JCRFile × List Event :=
  match s.fsFile with
  | none => (none, s, [])
  | some _ =>
    match ensureGotLocalCopy s env.fetchEnv with
    | (Except.error e, s1, tr) =>
        (some (ErrVal.smb NTStatus.unsuccessful e.message), s1, tr)
    | (Except.ok localFile, s1, tr) =>
      if s1.share.path = "/content/dam" then
        let url := s1.assetUrl
        let tr2 := tr ++ [Event.delReq url, Event.postReq url]
        match env.postErr with
        | some m => (some (ErrVal.smb NTStatus.unsuccessful m), s1, tr2)
        | none =>
          if env.postStatus ≠ 200 then
            (some (ErrVal.smb NTStatus.unsuccessful ""), s1, tr2)
          else
            let tr3 := tr2 ++ [Event.statCall localFile.filePath]
            match env.statErr with
            | some m => (some (ErrVal.raw m), s1, tr3)
            | none =>
                (none, JCRFile.setLastModified { s1 with fileLength := env.statSize }
                  env.statMtimeMs, tr3)
      else
        (some (ErrVal.smb NTStatus.notImplemented ""), s1, tr)

/-- Outcomes the environment delivers to one delete: the transport error of the DELETE request, its status code, and whether the own delete of the local staging copy would fail (the source discards that callback argument). -/
structure DeleteEnv where
  err : Option String
  statusCode : Nat
  localDeleteFails : Bool
  deriving DecidableEq, Repr

/-- JCRFile.prototype.delete. On the dam share path it issues DELETE against
the asset url: a transport error or non-200 status reports
STATUS_UNSUCCESSFUL; on 200 it deletes any local staging copy with an
ignoring callback, clears this.fsFile and reports success. Off the dam path
it reports STATUS_NOT_IMPLEMENTED with no network call. -/
def JCRFile.deleteOp (s : JCRFile) (env : DeleteEnv) :
    Option ErrVal × JCRFile × List Event :=
  if s.share.path = "/content/dam" then
    let tr := [Event.delReq s.assetUrl]
    match env.err with
    | some _ => (some (ErrVal.smb NTStatus.unsuccessful ""), s, tr)
    | none =>
      if env.statusCode ≠ 200 then
        (some (ErrVal.smb NTStatus.unsuccessful ""), s, tr)
      else
        match s.fsFile with
        | some f =>
            (none, { s with fsFile := none }, tr ++ [Event.localDelete f.filePath])
        | none => (none, s, tr)
  else
    (some (ErrVal.smb NTStatus.notImplemented ""), s, [])

/-- Outcome the environment delivers to one close: the local delete result. -/
structure CloseEnv where
  localDeleteFails : Bool
  errMsg : String
  deriving DecidableEq, Repr

/-- JCRFile.prototype.close: with a staging copy, delete its backing file
(reporting the outcome of that delete) and clear this.fsFile; otherwise succeed. -/
def JCRFile.close (s : JCRFile) (env : CloseEnv) :
    Option ErrVal × JCRFile × List Event :=
  match s.fsFile with
  | some f =>
      ((if env.localDeleteFails then some (ErrVal.raw env.errMsg) else none),
        { s with fsFile := none }, [Event.localDelete f.filePath])
  | none => (none, s, [])

/-- One operation applied to a handle, with the environment outcomes its
callbacks would observe. -/
inductive Op
  | ensure (env : FetchEnv)
  | closeOp (env : CloseEnv)
  | deleteOp (env : DeleteEnv)
  | flushOp (env : FlushEnv)
  deriving DecidableEq, Repr

/-- Apply one operation, keeping the successor state and the trace. -/
def step (s : JCRFile) : Op → JCRFile × List Event
  | Op.ensure e => ((ensureGotLocalCopy s e).2.1, (ensureGotLocalCopy s e).2.2)
  | Op.closeOp e => ((s.close e).2.1, (s.close e).2.2)
  | Op.deleteOp e => ((s.deleteOp e).2.1, (s.deleteOp e).2.2)
  | Op.flushOp e => ((s.flush e).2.1, (s.flush e).2.2)

/-- Run a sequence of operations, concatenating the traces. -/
def run (s : JCRFile) : List Op → JCRFile × List Event
  | [] => (s, [])
  | op :: ops =>
    let r1 := step s op
    let r2 := run r1.1 ops
    (r2.1, r1.2 ++ r2.2)

/-- Membership characterization of the static isFile predicate. -/
theorem isFile_iff (t : String) :
    JCRFile.isFile t = true ↔ t = NT_FILE ∨ t = DAM_ASSET := by
  simp [JCRFile.isFile, List.contains]

/-- Membership characterization of the static isDirectory predicate. -/
theorem isDirectory_iff (t : String) :
    JCRFile.isDirectory t = true ↔
      t = NT_FOLDER ∨ t = SLING_FOLDER ∨ t = SLING_ORDEREDFOLDER := by
  simp [JCRFile.isDirectory, List.contains]

/-- The file-like and directory-like tag sets are disjoint. -/
theorem isFile_isDirectory_disjoint (t : String) :
    ¬(JCRFile.isFile t = true ∧ JCRFile.isDirectory t = true) := by
  rintro ⟨hf, hd⟩
  rcases (isFile_iff t).mp hf with h | h <;>
    rcases (isDirectory_iff t).mp hd with h2 | h2 | h2 <;>
      subst h <;> revert h2 <;> decide

/-- C9: classify maps exactly the tags nt:file and dam:Asset to File,
exactly the tags nt:folder, sling:OrderedFolder and sling:Folder to
Directory, and every other tag to Other; the two tag sets are disjoint, so
the isFile and isDirectory predicates are never both true on one tag. -/
theorem classify_complete (t : String) :
    (classify t = FileKind.file ↔ (t = NT_FILE ∨ t = DAM_ASSET)) ∧
    (classify t = FileKind.directory ↔
      (t = NT_FOLDER ∨ t = SLING_ORDEREDFOLDER ∨ t = SLING_FOLDER)) ∧
    (classify t = FileKind.other ↔
      (JCRFile.isFile t = false ∧ JCRFile.isDirectory t = false)) ∧
    ¬(JCRFile.isFile t = true ∧ JCRFile.isDirectory t = true) := by
  have hfi := isFile_iff t
  have hdi := isDirectory_iff t
  have hdisj := isFile_isDirectory_disjoint t
  cases hf : JCRFile.isFile t with
  | false =>
    cases hd : JCRFile.isDirectory t with
    | false =>
      simp only [hf, hd, false_iff] at hfi hdi
      simp [classify, hf, hd]
      tauto
    | true =>
      simp only [hf, hd, false_iff, true_iff] at hfi hdi
      simp [classify, hf, hd]
      tauto
  | true =>
    cases hd : JCRFile.isDirectory t with
    | false =>
      simp only [hf, hd, false_iff, true_iff] at hfi hdi
      simp [classify, hf, hd]
      tauto
    | true => exact absurd ⟨hf, hd⟩ hdisj

/-- Concrete share descriptor on the dam path used by concrete instances. -/
def damShare : Share := ⟨"localhost", 4502, "/content/dam"⟩

/-- Concrete directory-typed handle with a nonzero stored fileLength. -/
def folderHandle : JCRFile := ⟨"/folder1", ⟨NT_FOLDER, 0, 0⟩, 5, damShare, none⟩

/-- C5 counterexample: size() of a directory-typed handle returns the stored
fileLength (5 here), not 0 — the source returns this.fileLength for every
handle, and it is allocationSize() that returns 0 for directories. -/
theorem size_directory_counterexample :
    folderHandle.isDirectoryM = true ∧ folderHandle.size = 5 ∧ folderHandle.size ≠ 0 := by
  decide

/-- C5 (amended): size() returns the last known byte length for every
handle, directory-typed ones included; allocationSize() returns size() for
file-typed handles and 0 for directory-typed ones. -/
theorem size_allocation_spec (s : JCRFile) :
    s.size = s.fileLength ∧
    (s.isFileM = true → s.allocationSize = s.size) ∧
    (s.isDirectoryM = true → s.allocationSize = 0) := by
  refine ⟨rfl, fun h => by simp [JCRFile.allocationSize, h], fun h => ?_⟩
  have hf : s.isFileM = false := by
    cases hf2 : s.isFileM
    · rfl
    · exact absurd ⟨hf2, h⟩ (isFile_isDirectory_disjoint s.content.primaryType)
  simp [JCRFile.allocationSize, hf]

/-- C5 amended witness at the concrete directory-typed handle. -/
theorem size_allocation_spec_witness :
    folderHandle.size = folderHandle.fileLength ∧ folderHandle.allocationSize = 0 :=
  ⟨(size_allocation_spec folderHandle).1,
    (size_allocation_spec folderHandle).2.2 (by decide)⟩

/-- A materialized handle returns the cached delegate at once with no I/O. -/
theorem ensure_cached (s : JCRFile) (f : FSFile) (h : s.fsFile = some f) (env : FetchEnv) :
    ensureGotLocalCopy s env = (Except.ok f, s, []) := by
  simp [ensureGotLocalCopy, h]

/-- Sequential calls on a materialized handle: same reference every time, no
I/O at all. -/
theorem ensureSeq_cached (s : JCRFile) (f : FSFile) (h : s.fsFile = some f)
    (envs : List FetchEnv) :
    ensureSeq s envs = (s, List.replicate envs.length (Except.ok f), []) := by
  induction envs with
  | nil => simp [ensureSeq]
  | cons e rest ih => simp [ensureSeq, ensure_cached s f h e, ih, List.replicate]

/-- A successful fetch on an unmaterialized handle: one tmp file, one GET,
one stat, and the new delegate cached on the handle. -/
theorem ensure_success (s : JCRFile) (e : FetchEnv) (h0 : s.fsFile = none)
    (hok : e.isOk = true) :
    ensureGotLocalCopy s e =
      (Except.ok ⟨e.tmpPath, e.statSize⟩,
        { s with fsFile := some ⟨e.tmpPath, e.statSize⟩ },
        [Event.tmpCreate e.tmpPath, Event.getReq s.getUrl, Event.statCall e.tmpPath]) := by
  simp only [FetchEnv.isOk, Bool.and_eq_true, beq_iff_eq,
    Option.isNone_iff_eq_none] at hok
  obtain ⟨⟨h1, h2⟩, h3⟩ := hok
  simp [ensureGotLocalCopy, h0, h1, h2, h3]

/-- C1: on an unmaterialized handle, N sequential ensureGotLocalCopy calls
(N at least 1, the first fetch succeeding) perform exactly one GET fetch in
total and every call returns the same cached delegate reference. -/
theorem ensureSeq_fetch_once (s : JCRFile) (e : FetchEnv) (rest : List FetchEnv)
    (h0 : s.fsFile = none) (hok : e.isOk = true) :
    ∃ f : FSFile,
      (ensureSeq s (e :: rest)).2.1 = List.replicate (rest.length + 1) (Except.ok f) ∧
      (ensureSeq s (e :: rest)).1.fsFile = some f ∧
      fetchCount (ensureSeq s (e :: rest)).2.2 = 1 := by
  refine ⟨⟨e.tmpPath, e.statSize⟩, ?_⟩
  have h1 := ensure_success s e h0 hok
  have h2 := ensureSeq_cached { s with fsFile := some ⟨e.tmpPath, e.statSize⟩ }
    ⟨e.tmpPath, e.statSize⟩ rfl rest
  simp [ensureSeq, h1, h2, fetchCount, Event.isGet, List.replicate]

/-- Concrete unmaterialized file-typed handle. -/
def freshHandle : JCRFile := ⟨"/a.txt", ⟨NT_FILE, 0, 0⟩, 3, damShare, none⟩

/-- Concrete fetch environment in which the GET succeeds. -/
def okFetch : FetchEnv := ⟨"/tmp/t1-a.txt", none, 200, none, 1024⟩

/-- C1 witness: two sequential calls on the concrete fresh handle. -/
theorem ensureSeq_fetch_once_witness :
    freshHandle.fsFile = none ∧ FetchEnv.isOk okFetch = true ∧
    ∃ f : FSFile,
      (ensureSeq freshHandle (okFetch :: [okFetch])).2.1 =
        List.replicate ([okFetch].length + 1) (Except.ok f) ∧
      (ensureSeq freshHandle (okFetch :: [okFetch])).1.fsFile = some f ∧
      fetchCount (ensureSeq freshHandle (okFetch :: [okFetch])).2.2 = 1 :=
  ⟨rfl, rfl, ensureSeq_fetch_once freshHandle okFetch [okFetch] rfl rfl⟩

/-- C7: a fetch failing with a transport error or a non-200 status unlinks
the tmp file before the callback reports the error (the trace lists all I/O
preceding the callback, and ends with the unlink), leaves the handle
unmaterialized, and a subsequent call with a succeeding environment fetches
again and materializes. -/
theorem ensure_failure_not_memoized (s : JCRFile) (e e2 : FetchEnv)
    (h0 : s.fsFile = none)
    (hfail : (∃ m, e.transportErr = some m) ∨ (e.transportErr = none ∧ e.statusCode ≠ 200))
    (hok : e2.isOk = true) :
    (∃ err, (ensureGotLocalCopy s e).1 = Except.error err) ∧
    (ensureGotLocalCopy s e).2.2 =
      [Event.tmpCreate e.tmpPath, Event.getReq s.getUrl, Event.unlink e.tmpPath] ∧
    (ensureGotLocalCopy s e).2.1.fsFile = none ∧
    (ensureGotLocalCopy (ensureGotLocalCopy s e).2.1 e2).1 =
      Except.ok ⟨e2.tmpPath, e2.statSize⟩ ∧
    (ensureGotLocalCopy (ensureGotLocalCopy s e).2.1 e2).2.1.fsFile =
      some ⟨e2.tmpPath, e2.statSize⟩ ∧
    fetchCount (ensureGotLocalCopy (ensureGotLocalCopy s e).2.1 e2).2.2 = 1 := by
  have h2 := ensure_success s e2 h0 hok
  rcases hfail with ⟨m, hm⟩ | ⟨hm, hs⟩
  · have h1 : ensureGotLocalCopy s e =
        (Except.error (FetchErr.transport m), s,
          [Event.tmpCreate e.tmpPath, Event.getReq s.getUrl, Event.unlink e.tmpPath]) := by
      simp [ensureGotLocalCopy, h0, hm]
    rw [h1, h2]
    simp [fetchCount, Event.isGet, h0]
  · have h1 : ensureGotLocalCopy s e =
        (Except.error
          (FetchErr.spoolFailed ("failed to spool " ++ s.filePath ++ " to " ++ e.tmpPath)),
          s,
          [Event.tmpCreate e.tmpPath, Event.getReq s.getUrl, Event.unlink e.tmpPath]) := by
      simp [ensureGotLocalCopy, h0, hm, hs]
    rw [h1, h2]
    simp [fetchCount, Event.isGet, h0]

/-- Concrete fetch environment in which the GET answers 404. -/
def badFetch : FetchEnv := ⟨"/tmp/t2-a.txt", none, 404, none, 0⟩

/-- C7 witness: a 404 fetch on the concrete fresh handle followed by a
succeeding retry. -/
theorem ensure_failure_not_memoized_witness :
    (∃ err, (ensureGotLocalCopy freshHandle badFetch).1 = Except.error err) ∧
    (ensureGotLocalCopy freshHandle badFetch).2.2 =
      [Event.tmpCreate badFetch.tmpPath, Event.getReq freshHandle.getUrl,
        Event.unlink badFetch.tmpPath] ∧
    (ensureGotLocalCopy freshHandle badFetch).2.1.fsFile = none ∧
    (ensureGotLocalCopy (ensureGotLocalCopy freshHandle badFetch).2.1 okFetch).1 =
      Except.ok ⟨okFetch.tmpPath, okFetch.statSize⟩ ∧
    (ensureGotLocalCopy (ensureGotLocalCopy freshHandle badFetch).2.1 okFetch).2.1.fsFile =
      some ⟨okFetch.tmpPath, okFetch.statSize⟩ ∧
    fetchCount
      (ensureGotLocalCopy (ensureGotLocalCopy freshHandle badFetch).2.1 okFetch).2.2 = 1 :=
  ensure_failure_not_memoized freshHandle badFetch okFetch rfl
    (Or.inr ⟨rfl, by decide⟩) rfl

/-- Concrete close environment in which the local delete succeeds. -/
def closeEnvOk : CloseEnv := ⟨false, ""⟩

/-- C6 counterexample: the run ensure, close, ensure on the concrete fresh
handle performs two GET fetches and ends with a staging copy materialized a
second time after the close — the handle does return to the unmaterialized
representation, and a second fetch-and-materialization occurs after Closed. -/
theorem staging_recreated_counterexample :
    fetchCount (run freshHandle
      [Op.ensure okFetch, Op.closeOp closeEnvOk, Op.ensure okFetch]).2 = 2 ∧
    (run freshHandle
      [Op.ensure okFetch, Op.closeOp closeEnvOk, Op.ensure okFetch]).1.fsFile.isSome = true := by
  decide

/-- C6 (amended): close() clears the staging reference, returning the handle
to the unmaterialized representation, and a subsequent ensureGotLocalCopy
call with a succeeding environment performs a new fetch and recreates a
staging copy; the at-most-once creation therefore holds only between such
resets, not across the whole handle lifetime. -/
theorem staging_cleared_and_recreated (s : JCRFile) (cenv : CloseEnv) (e : FetchEnv)
    (hok : e.isOk = true) :
    (s.close cenv).2.1.fsFile = none ∧
    fetchCount (ensureGotLocalCopy (s.close cenv).2.1 e).2.2 = 1 ∧
    (ensureGotLocalCopy (s.close cenv).2.1 e).2.1.fsFile = some ⟨e.tmpPath, e.statSize⟩ := by
  have hclear : (s.close cenv).2.1.fsFile = none := by
    rcases hf : s.fsFile with _ | f <;> simp [JCRFile.close, hf]
  have h2 := ensure_success (s.close cenv).2.1 e hclear hok
  refine ⟨hclear, ?_, ?_⟩
  · rw [h2]
    simp [fetchCount, Event.isGet]
  · rw [h2]

/-- Concrete staged delegate and staged asset-typed handle. -/
def stagedFS : FSFile := ⟨"/tmp/t3-x.bin", 10⟩

/-- Concrete materialized handle of asset type on the dam share. -/
def stagedHandle : JCRFile := ⟨"/x.bin", ⟨DAM_ASSET, 0, 7⟩, 10, damShare, some stagedFS⟩

/-- C6 amended witness at the concrete materialized handle. -/
theorem staging_cleared_and_recreated_witness :
    (stagedHandle.close closeEnvOk).2.1.fsFile = none ∧
    fetchCount (ensureGotLocalCopy (stagedHandle.close closeEnvOk).2.1 okFetch).2.2 = 1 ∧
    (ensureGotLocalCopy (stagedHandle.close closeEnvOk).2.1 okFetch).2.1.fsFile =
      some ⟨okFetch.tmpPath, okFetch.statSize⟩ :=
  staging_cleared_and_recreated stagedHandle closeEnvOk okFetch rfl

/-- C8: every failure of read() or write() — whether of the fetch performed
by ensureGotLocalCopy or of the byte-range operation of the staging delegate
— reaches the caller as one normalized operation-unsuccessful error value. -/
theorem read_write_failure_normalized (s : JCRFile) (fenv : FetchEnv) (denv : DelegateEnv) :
    (∀ e, (JCRFile.read s fenv denv).1 = Except.error e →
      ∃ m, e = ErrVal.smb NTStatus.unsuccessful m) ∧
    (∀ e, (JCRFile.write s fenv denv).1 = some e →
      ∃ m, e = ErrVal.smb NTStatus.unsuccessful m) := by
  constructor
  · intro e he
    unfold JCRFile.read at he
    rcases h : ensureGotLocalCopy s fenv with ⟨r, s1, tr⟩
    rw [h] at he
    rcases r with err | f
    · simp at he
      exact ⟨err.message, he.symm⟩
    · simp [FSFile.readOp] at he
      rcases hf : denv.fails
      · simp [hf] at he
      · simp [hf] at he
        exact ⟨denv.errMsg, he.symm⟩
  · intro e he
    unfold JCRFile.write at he
    rcases h : ensureGotLocalCopy s fenv with ⟨r, s1, tr⟩
    rw [h] at he
    rcases r with err | f
    · simp at he
      exact ⟨err.message, he.symm⟩
    · simp [FSFile.writeOp] at he
      rcases hf : denv.fails
      · simp [hf] at he
      · simp [hf] at he
        exact ⟨denv.errMsg, he.symm⟩

/-- Concrete delegate environment in which the byte-range operation fails. -/
def badDelegate : DelegateEnv := ⟨true, "disk exploded", 0⟩

/-- C8 witness: a failing fetch on the concrete fresh handle surfaces an
operation-unsuccessful error from read(). -/
theorem read_write_failure_normalized_witness :
    ∃ m, ErrVal.smb NTStatus.unsuccessful "failed to spool /a.txt to /tmp/t2-a.txt" =
      ErrVal.smb NTStatus.unsuccessful m :=
  (read_write_failure_normalized freshHandle badFetch badDelegate).1
    (ErrVal.smb NTStatus.unsuccessful "failed to spool /a.txt to /tmp/t2-a.txt") rfl

/-- C3: a staged flush on the dam share path issues DELETE then POST against
the same asset url, in that order, and the POST is reached whatever the
outcome of the DELETE was — the environment fields carrying the DELETE error
and status are universally quantified here and never constrained, matching
the source, which binds but never reads the DELETE callback arguments. -/
theorem flush_delete_then_post (s : JCRFile) (f : FSFile) (env : FlushEnv)
    (hstaged : s.fsFile = some f) (hdam : s.share.path = "/content/dam") :
    ∃ rest, (s.flush env).2.2 =
      Event.delReq s.assetUrl :: Event.postReq s.assetUrl :: rest := by
  have hc := ensure_cached s f hstaged env.fetchEnv
  simp only [JCRFile.flush, hstaged, hc, hdam]
  rcases hpe : env.postErr with _ | m
  · by_cases hps : env.postStatus = 200
    · exact ⟨[Event.statCall f.filePath], by rcases hse : env.statErr <;> simp [hps, hse]⟩
    · exact ⟨[], by simp [hps]⟩
  · exact ⟨[], by simp⟩

/-- Concrete flush environment: the DELETE step fails (transport error and a
500 status are delivered), the POST succeeds with 200, and the stat of the
staged file reports 1024 bytes and mtime 5555. -/
def flushEnvOk : FlushEnv := ⟨okFetch, some "gone", 500, none, 200, none, 1024, 5555⟩

/-- C3 witness: the concrete staged handle, with a failing DELETE outcome. -/
theorem flush_delete_then_post_witness :
    ∃ rest, (stagedHandle.flush flushEnvOk).2.2 =
      Event.delReq stagedHandle.assetUrl :: Event.postReq stagedHandle.assetUrl :: rest :=
  flush_delete_then_post stagedHandle stagedFS flushEnvOk rfl rfl

/-- Concrete staged handle whose primary type is neither file-like nor
directory-like. -/
def otherStaged : JCRFile := ⟨"/y.bin", ⟨"nt:unstructured", 0, 0⟩, 10, damShare, some stagedFS⟩

/-- C2 counterexample: a successful staged flush under the dam path on a
non-file-typed handle (stat size 1024, stat mtime 5555) updates size() to
1024 but leaves lastModified() at created() = 0, because setLastModified is
a no-op for non-file-typed handles — the lastModified half of the claim
fails on this input. -/
theorem flush_metadata_counterexample :
    (otherStaged.flush flushEnvOk).1 = none ∧
    (otherStaged.flush flushEnvOk).2.1.size = 1024 ∧
    ¬((otherStaged.flush flushEnvOk).2.1.lastModified = 5555) := by
  decide

/-- C2 (amended): a staged flush under the dam path whose POST returns 200
and whose stat succeeds reports success and sets size() to the byte count of
the staged stat; lastModified() reflects the mtime of that stat when the
handle is file-typed (for other handles the timestamp record is untouched). -/
theorem flush_success_metadata (s : JCRFile) (f : FSFile) (env : FlushEnv)
    (hstaged : s.fsFile = some f) (hdam : s.share.path = "/content/dam")
    (hpe : env.postErr = none) (hps : env.postStatus = 200) (hse : env.statErr = none) :
    (s.flush env).1 = none ∧
    (s.flush env).2.1.size = env.statSize ∧
    (s.isFileM = true → (s.flush env).2.1.lastModified = env.statMtimeMs) := by
  have hc := ensure_cached s f hstaged env.fetchEnv
  simp only [JCRFile.flush, hstaged, hc, hdam, hpe, hps, hse]
  rcases hf : s.isFileM
  · simp [JCRFile.setLastModified, JCRFile.size, JCRFile.isFileM] at hf ⊢
    simp [hf]
  · simp [JCRFile.setLastModified, JCRFile.size, JCRFile.lastModified,
      JCRFile.isFileM] at hf ⊢
    simp [hf]

/-- Concrete staged file-typed handle on the dam share. -/
def fileStaged : JCRFile := ⟨"/z.txt", ⟨NT_FILE, 0, 7⟩, 10, damShare, some stagedFS⟩

/-- C2 amended witness at the concrete staged file-typed handle. -/
theorem flush_success_metadata_witness :
    (fileStaged.flush flushEnvOk).1 = none ∧
    (fileStaged.flush flushEnvOk).2.1.size = flushEnvOk.statSize ∧
    (fileStaged.isFileM = true →
      (fileStaged.flush flushEnvOk).2.1.lastModified = flushEnvOk.statMtimeMs) :=
  flush_success_metadata fileStaged stagedFS flushEnvOk rfl rfl rfl rfl rfl

/-- C4: a staged flush under the dam path that fails at the create step —
POST transport error, or non-200 POST status — reports an
operation-unsuccessful SMBError and leaves the byte length and the whole
content record (so the last-modified timestamp too) exactly as before. -/
theorem flush_failure_preserves_metadata (s : JCRFile) (f : FSFile) (env : FlushEnv)
    (hstaged : s.fsFile = some f) (hdam : s.share.path = "/content/dam")
    (hfail : (∃ m, env.postErr = some m) ∨ (env.postErr = none ∧ env.postStatus ≠ 200)) :
    (∃ m, (s.flush env).1 = some (ErrVal.smb NTStatus.unsuccessful m)) ∧
    (s.flush env).2.1.fileLength = s.fileLength ∧
    (s.flush env).2.1.content = s.content := by
  have hc := ensure_cached s f hstaged env.fetchEnv
  rcases hfail with ⟨m, hm⟩ | ⟨hm, hs⟩
  · simp [JCRFile.flush, hstaged, hc, hdam, hm]
  · simp [JCRFile.flush, hstaged, hc, hdam, hm, hs]

/-- Concrete flush environment whose POST answers 503. -/
def flushEnvBad : FlushEnv := ⟨okFetch, none, 200, none, 503, none, 1024, 5555⟩

/-- C4 witness at the concrete staged asset-typed handle. -/
theorem flush_failure_preserves_metadata_witness :
    (∃ m, (stagedHandle.flush flushEnvBad).1 = some (ErrVal.smb NTStatus.unsuccessful m)) ∧
    (stagedHandle.flush flushEnvBad).2.1.fileLength = stagedHandle.fileLength ∧
    (stagedHandle.flush flushEnvBad).2.1.content = stagedHandle.content :=
  flush_failure_preserves_metadata stagedHandle stagedFS flushEnvBad rfl rfl
    (Or.inr ⟨rfl, by decide⟩)

/-- C10: a delete() on the dam share path whose remote DELETE returns 200
reports success and clears the staging reference no matter whether the local
delete of the staging copy would fail — the localDeleteFails field of the
environment is unconstrained and, explicitly, flipping it never changes the
reported outcome, matching the source, which passes an ignoring callback. -/
theorem delete_ignores_local_failure (s : JCRFile) (env : DeleteEnv)
    (hdam : s.share.path = "/content/dam") (herr : env.err = none)
    (hst : env.statusCode = 200) :
    (s.deleteOp env).1 = none ∧ (s.deleteOp env).2.1.fsFile = none ∧
    ((s.deleteOp { env with localDeleteFails := true }).1 = none ∧
      (s.deleteOp { env with localDeleteFails := false }).1 = none) := by
  rcases hf : s.fsFile with _ | f <;>
    simp [JCRFile.deleteOp, hdam, herr, hst, hf]

/-- Concrete delete environment: remote DELETE succeeds with 200, the local
staging delete would fail. -/
def delEnvOk : DeleteEnv := ⟨none, 200, true⟩

/-- C10 witness at the concrete staged asset-typed handle. -/
theorem delete_ignores_local_failure_witness :
    (stagedHandle.deleteOp delEnvOk).1 = none ∧
    (stagedHandle.deleteOp delEnvOk).2.1.fsFile = none :=
  ⟨(delete_ignores_local_failure stagedHandle delEnvOk rfl rfl rfl).1,
    (delete_ignores_local_failure stagedHandle delEnvOk rfl rfl rfl).2.1⟩

end JCRModel
